import Mathlib

/-!
Shallow embedding of the `AIImageAnalyzer` class from the ai-integration
repository (file `src/unnamed/part_000`, an AI image-analysis dispatch
module with a result cache and a statistics tracker), together with
theorems settling the frozen claims about it.

Modelling conventions:
* JS numbers are modelled as `ℚ` (exact rational arithmetic), counters as `ℕ`.
* `Math.random()` is modelled as an ambient stream `Env.rand : ℕ → ℚ`
  consumed left to right; `Date.now()` / `new Date()` readings as a stream
  `Env.time : ℕ → ℚ`.  A `Ticks` record tracks how many values of each
  stream have been consumed.
* The file system is a map `Env.fs : String → Option ℕ` giving the byte size
  of a readable file (`none` = `fs.statSync` / `fs.readFileSync` throw).
* Outbound HTTP calls are oracles `Env.openaiResp` / `Env.googleResp`
  indexed by the number of HTTP calls made so far; `none` collapses every
  backend failure (network error, timeout, non-2xx, malformed body).
* Throwing JS code is embedded with `Except JsErr`.
* `(… ).toFixed(2)` yields a JS *string*; the embedding keeps the tag via
  the `ConfVal` type (`ConfVal.str` vs `ConfVal.num`).
-/

abbrev JsErr := String

/-- Tag distinguishing a JS number from a JS string in the `confidence`
field (the source's mock path builds it with `.toFixed(2)`, which returns
a string; the OpenAI and Google paths use plain numbers). -/
inductive ConfVal where
  | num (q : ℚ)
  | str (s : String)
deriving DecidableEq

/-- Image reference argument of `analyzeImage`: a file path or an
in-memory buffer (we carry the byte list; the source only ever uses the
buffer's length and an opaque base64 rendering). -/
inductive ImageRef where
  | path (p : String)
  | buffer (bytes : List ℕ)
deriving DecidableEq

/-- The analysis options object `{ prompt?, maxTokens?, detail?, analysisType? }`
(spec §3 AnalysisRequest); absent keys are `none`.  Callers of the source
pass plain object literals; the embedding fixes the field order
prompt, maxTokens, detail, analysisType for `JSON.stringify`. -/
structure Options where
  prompt : Option String := none
  maxTokens : Option ℕ := none
  detail : Option String := none
  analysisType : Option String := none
deriving DecidableEq

/-! ### JSON serialization of the options object (for `getCacheKey`) -/

/-- Decimal digit character (total, used only with arguments < 10). -/
def digitChar : ℕ → Char
  | 0 => '0' | 1 => '1' | 2 => '2' | 3 => '3' | 4 => '4'
  | 5 => '5' | 6 => '6' | 7 => '7' | 8 => '8' | 9 => '9'
  | _ => '0'

/-- Fuel-indexed decimal digits of a natural number (structural recursion so
that closed terms reduce definitionally). -/
def natDigitsAux : ℕ → ℕ → List Char
  | 0, _ => []
  | fuel + 1, n =>
      if n < 10 then [digitChar n]
      else natDigitsAux fuel (n / 10) ++ [digitChar (n % 10)]

/-- Decimal digit list of a natural number (embedding of JS number-to-string
for nonnegative integers). -/
def natDigits (n : ℕ) : List Char := natDigitsAux (n + 1) n

/-- JSON string escaping: `"` ↦ `\"` and `\` ↦ `\\`, all other characters
kept (control characters are not modelled). -/
def escChars : List Char → List Char
  | [] => []
  | c :: cs =>
      if c = '"' then '\\' :: '"' :: escChars cs
      else if c = '\\' then '\\' :: '\\' :: escChars cs
      else c :: escChars cs

def promptKey : List Char := ['p', 'r', 'o', 'm', 'p', 't']
def maxTokensKey : List Char := ['m', 'a', 'x', 'T', 'o', 'k', 'e', 'n', 's']
def detailKey : List Char := ['d', 'e', 't', 'a', 'i', 'l']
def analysisTypeKey : List Char :=
  ['a', 'n', 'a', 'l', 'y', 's', 'i', 's', 'T', 'y', 'p', 'e']

/-- One `"key":"value"` member with a string value. -/
def strField (key : List Char) (v : String) : List Char :=
  '"' :: key ++ '"' :: ':' :: '"' :: escChars v.data ++ ['"']

/-- One `"maxTokens":n` member with a number value. -/
def numField (n : ℕ) : List Char :=
  '"' :: maxTokensKey ++ '"' :: ':' :: natDigits n

/-- Comma-join of JSON object members. -/
def joinComma : List (List Char) → List Char
  | [] => []
  | [p] => p
  | p :: q :: ps => p ++ ',' :: joinComma (q :: ps)

/-- The members of the serialized options object, in the fixed field order. -/
def optParts (o : Options) : List (List Char) :=
  (o.prompt.toList.map (strField promptKey)) ++
  (o.maxTokens.toList.map numField) ++
  (o.detail.toList.map (strField detailKey)) ++
  (o.analysisType.toList.map (strField analysisTypeKey))

/-- `JSON.stringify(options)` as a character list. -/
def stringifyOpts (o : Options) : List Char :=
  '{' :: joinComma (optParts o) ++ ['}']

/-- Character-list form of `getCacheKey` (source lines 379–386):
string path ↦ `path + "-" + JSON.stringify(options)`;
buffer ↦ `"buffer-" + length + "-" + JSON.stringify(options)`. -/
def getCacheKeyL : ImageRef → Options → List Char
  | .path p, o => p.data ++ '-' :: stringifyOpts o
  | .buffer bs, o =>
      ('b' :: 'u' :: 'f' :: 'f' :: 'e' :: 'r' :: '-' :: natDigits bs.length)
        ++ '-' :: stringifyOpts o

/-- The cache fingerprint as a string. -/
def getCacheKey (img : ImageRef) (o : Options) : String :=
  ⟨getCacheKeyL img o⟩

/-! ### Configuration (constructor defaults, source lines 9–35) -/

/-- The `openai` provider sub-object; keys may be absent (`none`), as happens
after a wholesale replacement by `updateConfig`. -/
structure OpenAIConfig where
  apiKey : Option String := none
  model : Option String := none
deriving DecidableEq

/-- The `google` provider sub-object. -/
structure GoogleConfig where
  apiKey : Option String := none
  projectId : Option String := none
deriving DecidableEq

/-- The `local` provider sub-object. -/
structure LocalConfig where
  useLocal : Option Bool := none
  modelPath : Option String := none
deriving DecidableEq

/-- The analyzer's active configuration after construction. -/
structure Config where
  mode : String
  openai : OpenAIConfig
  google : GoogleConfig
  localCfg : LocalConfig
  maxRetries : ℕ
  timeout : ℕ
  cacheResults : Bool
deriving DecidableEq

/-- A JS object passed to the constructor or to `updateConfig`: every
top-level key optional (`none` = key absent). -/
structure ConfigUpdate where
  mode : Option String := none
  openai : Option OpenAIConfig := none
  google : Option GoogleConfig := none
  localCfg : Option LocalConfig := none
  maxRetries : Option ℕ := none
  timeout : Option ℕ := none
  cacheResults : Option Bool := none
deriving DecidableEq

/-- JS `x || d` for an optional string (absent and `""` are falsy). -/
def orStr (o : Option String) (d : String) : String :=
  match o with
  | some s => if s = "" then d else s
  | none => d

/-- JS `x || d` for an optional number (absent and `0` are falsy). -/
def orNat (o : Option ℕ) (d : ℕ) : ℕ :=
  match o with
  | some n => if n = 0 then d else n
  | none => d

/-- JS truthiness of an optional string credential (`!this.config.…apiKey`). -/
def truthyS : Option String → Bool
  | none => false
  | some s => s != ""

/-- Constructor defaults (source lines 9–35): mode `'mock'`, empty
credentials, `cacheResults !== false`. -/
def buildConfig (c : ConfigUpdate) : Config where
  mode := orStr c.mode "mock"
  openai := c.openai.getD { apiKey := some "", model := some "gpt-4-vision-preview" }
  google := c.google.getD { apiKey := some "", projectId := some "" }
  localCfg := c.localCfg.getD { useLocal := some false, modelPath := some "./models" }
  maxRetries := orNat c.maxRetries 3
  timeout := orNat c.timeout 30000
  cacheResults := c.cacheResults.getD true

/-- `updateConfig` body (source line 412): `this.config = { ...this.config,
...newConfig }` — a JS object spread, i.e. a shallow merge in which every
top-level key present in the update replaces the current value wholesale. -/
def mergeConfig (c : Config) (p : ConfigUpdate) : Config where
  mode := p.mode.getD c.mode
  openai := p.openai.getD c.openai
  google := p.google.getD c.google
  localCfg := p.localCfg.getD c.localCfg
  maxRetries := p.maxRetries.getD c.maxRetries
  timeout := p.timeout.getD c.timeout
  cacheResults := p.cacheResults.getD c.cacheResults

/-! ### Results -/

/-- Metadata of a mock analysis (source lines 129–134). -/
structure MockMeta where
  width : ℤ
  height : ℤ
  format : String
  size : ℕ
deriving DecidableEq

/-- The `analysis` object produced by the mock backend (source lines 123–135). -/
structure MockAnalysis where
  objects : List String
  colors : List String
  sentiment : String
  confidence : ConfVal
  text : String
  metadata : MockMeta
deriving DecidableEq

/-- The `analysis` object produced by `parseOpenAIResponse` (source 268–278). -/
structure OpenAIAnalysis where
  description : String
  objects : List String
  colors : List String
  sentiment : String
  confidence : ConfVal
  text : String
deriving DecidableEq

/-- A label entry of a Google Vision response. -/
structure GLabel where
  description : String
  score : ℚ
deriving DecidableEq

/-- A face entry of a Google Vision response. -/
structure GFace where
  joy : String
  sorrow : String
  anger : String
  surprise : String
deriving DecidableEq

/-- A dominant-color entry of a Google Vision response. -/
structure GColorInfo where
  red : ℕ
  green : ℕ
  blue : ℕ
  score : ℚ
deriving DecidableEq

/-- The single response object `response.data.responses[0]` of the Google
annotate call; each block may be absent (the source reads them with `?.`). -/
structure GoogleResp where
  labelAnn : Option (List GLabel) := none
  textAnn : Option (List String) := none
  faceAnn : Option (List GFace) := none
  domColors : Option (List GColorInfo) := none
  safeSearchAnn : Option String := none
deriving DecidableEq

/-- The `analysis` object produced by `parseGoogleVisionResponse`
(source 283–313). -/
structure GoogleAnalysis where
  labels : List GLabel
  texts : List String
  faces : List GFace
  colors : List (String × ℚ)
  safeSearch : Option String
  confidence : ℚ
deriving DecidableEq

/-- The per-backend shape of the `analysis` field. -/
inductive AnalysisData where
  | mock (m : MockAnalysis)
  | openai (o : OpenAIAnalysis)
  | google (g : GoogleAnalysis)
deriving DecidableEq

/-- The OpenAI chat-completions response data used by the source:
`choices[0].message.content` and `usage.total_tokens`. -/
structure OAResp where
  content : String
  totalTokens : ℕ
deriving DecidableEq

/-- The `rawResponse` field (present on the OpenAI and Google paths). -/
inductive RawResp where
  | oa (r : OAResp)
  | goog (g : GoogleResp)
deriving DecidableEq

/-- The object returned by `analyzeImage` (spec §3 AnalysisResult). -/
structure AnalysisResult where
  success : Bool
  mode : String
  timestamp : ℚ
  analysis : AnalysisData
  processingTime : ℚ
  raw : Option RawResp
deriving DecidableEq

/-! ### Environment and consumption counters -/

/-- The ambient nondeterminism of one program run. -/
structure Env where
  /-- successive results of `Math.random()`. -/
  rand : ℕ → ℚ
  /-- successive clock readings (`Date.now()` / `new Date()`), as numbers. -/
  time : ℕ → ℚ
  /-- file system: byte size of each readable path (`none` = unreadable,
  `fs.statSync` / `fs.readFileSync` throw). -/
  fs : String → Option ℕ
  /-- outcome of the n-th OpenAI HTTP call (`none` = any backend failure). -/
  openaiResp : ℕ → Option OAResp
  /-- outcome of the n-th Google HTTP call (`none` = any backend failure). -/
  googleResp : ℕ → Option GoogleResp

/-- All `Math.random()` results lie in `[0, 1)`. -/
def ValidEnv (env : Env) : Prop :=
  ∀ i, 0 ≤ env.rand i ∧ env.rand i < 1

/-- How many values of each ambient stream have been consumed. -/
structure Ticks where
  rand : ℕ
  time : ℕ
  http : ℕ
deriving DecidableEq

/-- Mutable state of one `AIImageAnalyzer` instance, plus the stream
counters. -/
structure Stats where
  totalRequests : ℕ
  successful : ℕ
  failed : ℕ
  cacheHits : ℕ
  averageResponseTime : ℚ
deriving DecidableEq

/-- The analyzer's full state. -/
structure AState where
  config : Config
  cache : List (String × AnalysisResult)
  stats : Stats
  ticks : Ticks
deriving DecidableEq

/-- `new AIImageAnalyzer(config)` (source lines 9–45): build the config,
empty cache, zeroed stats. -/
def mkAnalyzer (c : ConfigUpdate) : AState where
  config := buildConfig c
  cache := []
  stats := ⟨0, 0, 0, 0, 0⟩
  ticks := ⟨0, 0, 0⟩

/-- `Map.get`-style lookup: the most recent `set` for a key wins. -/
def lookupCache (c : List (String × AnalysisResult)) (k : String) :
    Option AnalysisResult :=
  match c with
  | [] => none
  | (k', v) :: rest => if k' = k then some v else lookupCache rest k

/-- `Map.set`: bind `k` to `v`, replacing any previous binding. -/
def setCache (c : List (String × AnalysisResult)) (k : String)
    (v : AnalysisResult) : List (String × AnalysisResult) :=
  (k, v) :: c.filter (fun e => e.1 ≠ k)

/-! ### Mock backend (source lines 111–138 and helpers 316–352) -/

/-- `list[Math.floor(Math.random() * list.length)]` (out-of-range reads give
the default, which cannot happen for `r ∈ [0,1)`). -/
def pickL {α : Type} (l : List α) (d : α) (r : ℚ) : α :=
  l.getD (⌊r * l.length⌋).toNat d

/-- The five fixed object lists of `getRandomObjects`. -/
def objectLists : List (List String) :=
  [["person", "computer", "desk", "chair", "window"],
   ["car", "road", "tree", "building", "sky"],
   ["dog", "cat", "grass", "house", "fence"],
   ["food", "plate", "table", "utensils", "drink"],
   ["mountain", "lake", "forest", "clouds", "sun"]]

/-- The five fixed color palettes of `getRandomColors`. -/
def colorPalettes : List (List String) :=
  [["#2d3748", "#4a5568", "#718096", "#a0aec0", "#cbd5e0"],
   ["#667eea", "#764ba2", "#f687b3", "#fed7e2", "#fff5f7"],
   ["#38a169", "#48bb78", "#68d391", "#9ae6b4", "#c6f6d5"],
   ["#dd6b20", "#ed8936", "#f6ad55", "#fbd38d", "#feebc8"],
   ["#3182ce", "#4299e1", "#63b3ed", "#90cdf4", "#bee3f8"]]

/-- The sentiment labels of `getRandomSentiment` (source lines 338–341). -/
def sentiments : List String := ["positive", "neutral", "negative", "mixed"]

/-- The sample sentences of `getRandomText`. -/
def sampleTexts : List String :=
  ["A person working at a computer in a modern office environment.",
   "Beautiful landscape with mountains and a lake under clear skies.",
   "Delicious looking food arranged beautifully on a plate.",
   "Urban cityscape with tall buildings and busy streets.",
   "Cute pets playing together in a green garden."]

/-- `Math.floor(q*100 + rounding)` for `toFixed(2)`: round half away from
zero on the decimal value, as two-decimal integer numerator. -/
def toFixed100 (q : ℚ) : ℤ := ⌊q * 100 + 1 / 2⌋

/-- Render the two-decimal integer numerator as `toFixed(2)` does for
values in `[0, 1]` (only used with `70 ≤ n ≤ 100`). -/
def fixedStr (n : ℤ) : String :=
  if n = 100 then "1.00"
  else ⟨['0', '.', digitChar (n.toNat / 10 % 10), digitChar (n.toNat % 10)]⟩

/-- `path.extname(name).slice(1)`: characters after the last `.` of the
name, empty if there is none or it lies in a directory part.  (Leading-dot
files are not modelled; no claim depends on the `format` field.) -/
def extSlice (s : String) : String :=
  let rev := s.data.reverse
  let pre := rev.takeWhile (fun c => c ≠ '.' ∧ c ≠ '/')
  match rev.drop pre.length with
  | '.' :: _ => ⟨pre.reverse⟩
  | _ => ""

/-- The `format` metadata field: `path.extname(path or 'image.jpg').slice(1)
|| 'jpg'`. -/
def formatOf (img : ImageRef) : String :=
  let e := extSlice (match img with | .path p => p | .buffer _ => "image.jpg")
  if e = "" then "jpg" else e

/-- `fs.statSync(image).size` for a path, `image.length` for a buffer
(source line 133); throws for an unreadable path. -/
def statSize (env : Env) : ImageRef → Except JsErr ℕ
  | .path p =>
      match env.fs p with
      | some n => .ok n
      | none => .error ("ENOENT: " ++ p)
  | .buffer bs => .ok bs.length

/-- `analyzeWithMockAI` (source lines 111–138).  Consumes, in source order,
`Math.random()` for objects, colors, sentiment, confidence, text, width and
height, one clock reading for the timestamp, then reads the file size
(which may throw), then one more `Math.random()` for `processingTime`. -/
def analyzeWithMockAI (env : Env) (tk : Ticks) (image : ImageRef)
    (_options : Options) : Except JsErr AnalysisResult × Ticks :=
  let objects := pickL objectLists [] (env.rand tk.rand)
  let colors := pickL colorPalettes [] (env.rand (tk.rand + 1))
  let sentiment := pickL sentiments "positive" (env.rand (tk.rand + 2))
  let timestamp := env.time tk.time
  let confidence := ConfVal.str (fixedStr (toFixed100
    (env.rand (tk.rand + 3) * (3 / 10) + 7 / 10)))
  let text := pickL sampleTexts "" (env.rand (tk.rand + 4))
  let width : ℤ := ⌊env.rand (tk.rand + 5) * 1000⌋ + 800
  let height : ℤ := ⌊env.rand (tk.rand + 6) * 800⌋ + 600
  match statSize env image with
  | .error e => (.error e, { tk with rand := tk.rand + 7, time := tk.time + 1 })
  | .ok sz =>
      (.ok { success := true
             mode := "mock"
             timestamp := timestamp
             analysis := .mock
               { objects := objects
                 colors := colors
                 sentiment := sentiment
                 confidence := confidence
                 text := text
                 metadata := { width := width, height := height
                               format := formatOf image, size := sz } }
             processingTime := env.rand (tk.rand + 7) * 500 + 100
             raw := none },
       { tk with rand := tk.rand + 8, time := tk.time + 1 })

/-! ### OpenAI backend (source lines 143–202 and parse helpers 268–377) -/

/-- Lower-case a string (`text.toLowerCase()`; ASCII suffices here). -/
def lowerStr (s : String) : String := String.map Char.toLower s

/-- Boolean list-prefix test on characters. -/
def isPfxOf (needle hay : List Char) : Bool :=
  match needle, hay with
  | [], _ => true
  | c :: cs, d :: ds => c = d && isPfxOf cs ds
  | _ :: _, [] => false

/-- Boolean substring test (`String.prototype.includes`). -/
def infixOf (n : List Char) : List Char → Bool
  | [] => isPfxOf n []
  | h :: t => isPfxOf n (h :: t) || infixOf n t

/-- `hay.includes(needle)`. -/
def strIncludes (hay needle : String) : Bool := infixOf needle.data hay.data

/-- Vocabulary of `extractObjectsFromText`. -/
def commonObjects : List String :=
  ["person", "computer", "car", "tree", "building", "dog", "cat", "food",
   "mountain", "water"]

/-- Color names of `extractColorsFromText`. -/
def colorNames : List String :=
  ["red", "blue", "green", "yellow", "black", "white", "gray", "brown",
   "orange", "purple"]

/-- Positive keywords of `analyzeSentiment`. -/
def positiveWords : List String :=
  ["good", "great", "excellent", "happy", "beautiful", "wonderful", "amazing"]

/-- Negative keywords of `analyzeSentiment`. -/
def negativeWords : List String :=
  ["bad", "poor", "sad", "ugly", "terrible", "awful", "horrible"]

/-- `extractObjectsFromText` (source lines 354–358). -/
def extractObjectsFromText (text : String) : List String :=
  commonObjects.filter (fun o => strIncludes (lowerStr text) o)

/-- `analyzeSentiment` (source lines 366–377): keyword counting, ties are
neutral. -/
def analyzeSentiment (text : String) : String :=
  let lower := lowerStr text
  let positiveCount := (positiveWords.filter (fun w => strIncludes lower w)).length
  let negativeCount := (negativeWords.filter (fun w => strIncludes lower w)).length
  if positiveCount > negativeCount then "positive"
  else if negativeCount > positiveCount then "negative"
  else "neutral"

/-- Base-16 digit character (total, used only with arguments < 16). -/
def hexDigitChar (n : ℕ) : Char :=
  if n < 10 then digitChar n
  else if n = 10 then 'a'
  else if n = 11 then 'b'
  else if n = 12 then 'c'
  else if n = 13 then 'd'
  else if n = 14 then 'e'
  else 'f'

/-- Fuel-indexed base-16 digits (for `Number.prototype.toString(16)`). -/
def hexDigitsAux : ℕ → ℕ → List Char
  | 0, _ => []
  | fuel + 1, n =>
      if n < 16 then [hexDigitChar n]
      else hexDigitsAux fuel (n / 16) ++ [hexDigitChar (n % 16)]

/-- Base-16 rendering of a natural number. -/
def hexStr (n : ℕ) : String := ⟨hexDigitsAux (n + 1) n⟩

/-- `extractColorsFromText` (source lines 360–364): filter mentioned color
names, then fabricate one random hex code per mention (consuming one
`Math.random()` each). -/
def extractColorsFromText (env : Env) (tk : Ticks) (text : String) :
    List String × Ticks :=
  let found := colorNames.filter (fun c => strIncludes (lowerStr text) c)
  ((List.range found.length).map
      (fun i => "#" ++ hexStr (⌊env.rand (tk.rand + i) * 16777215⌋).toNat),
   { tk with rand := tk.rand + found.length })

/-- `parseOpenAIResponse` (source lines 268–278). -/
def parseOpenAIResponse (env : Env) (tk : Ticks) (text : String) :
    OpenAIAnalysis × Ticks :=
  let (colors, tk') := extractColorsFromText env tk text
  ({ description := text
     objects := extractObjectsFromText text
     colors := colors
     sentiment := analyzeSentiment text
     confidence := ConfVal.num (85 / 100)
     text := ⟨text.data.take 200⟩ ++ "..." }, tk')

/-- `readFileSync` for a path (only success/failure matters; the base64
payload is opaque to the HTTP oracle), no-op for a buffer. -/
def readImageOk (env : Env) : ImageRef → Except JsErr Unit
  | .path p => if (env.fs p).isSome then .ok () else .error ("ENOENT: " ++ p)
  | .buffer _ => .ok ()

/-- `analyzeWithOpenAI` (source lines 143–202): credential check, image
read, one HTTP call; on success one clock reading for the timestamp and a
heuristic parse; `processingTime` is `usage.total_tokens`. -/
def analyzeWithOpenAI (env : Env) (cfg : Config) (tk : Ticks)
    (image : ImageRef) (options : Options) :
    Except JsErr AnalysisResult × Ticks :=
  let _ := options
  if !truthyS cfg.openai.apiKey then
    (.error "OpenAI API key not configured", tk)
  else
    match readImageOk env image with
    | .error e => (.error e, tk)
    | .ok _ =>
        match env.openaiResp tk.http with
        | none =>
            (.error "openai request failed", { tk with http := tk.http + 1 })
        | some resp =>
            let tk1 : Ticks := { tk with http := tk.http + 1 }
            let timestamp := env.time tk1.time
            let tk2 : Ticks := { tk1 with time := tk1.time + 1 }
            let (analysis, tk3) := parseOpenAIResponse env tk2 resp.content
            (.ok { success := true
                   mode := "openai"
                   timestamp := timestamp
                   analysis := .openai analysis
                   processingTime := resp.totalTokens
                   raw := some (.oa resp) }, tk3)

/-! ### Google backend (source lines 207–255, parse 283–313) -/

/-- `parseGoogleVisionResponse` (source lines 283–313). -/
def parseGoogleVisionResponse (resp : GoogleResp) : GoogleAnalysis :=
  let labels := resp.labelAnn.getD []
  { labels := labels
    texts := resp.textAnn.getD []
    faces := resp.faceAnn.getD []
    colors := (resp.domColors.getD []).map (fun c =>
      ("rgb(" ++ hexFree c.red ++ ", " ++ hexFree c.green ++ ", "
        ++ hexFree c.blue ++ ")", c.score))
    safeSearch := resp.safeSearchAnn
    confidence := match labels with
      | [] => 1 / 2
      | l :: _ => l.score }
where
  hexFree (n : ℕ) : String := ⟨natDigits n⟩

/-- `analyzeWithGoogleVision` (source lines 207–255): credential check,
image read, one HTTP call.  On a successful, well-formed response the
source evaluates the timestamp and `parseGoogleVisionResponse`, then the
result literal reads the variable `startTime`, which is not defined in
this method's scope — a `ReferenceError` is thrown, so the function can
never return normally. -/
def analyzeWithGoogleVision (env : Env) (cfg : Config) (tk : Ticks)
    (image : ImageRef) (options : Options) :
    Except JsErr AnalysisResult × Ticks :=
  let _ := options
  if !truthyS cfg.google.apiKey then
    (.error "Google Vision API key not configured", tk)
  else
    match readImageOk env image with
    | .error e => (.error e, tk)
    | .ok _ =>
        match env.googleResp tk.http with
        | none =>
            (.error "google request failed", { tk with http := tk.http + 1 })
        | some resp =>
            let _timestamp := env.time tk.time
            let _discarded := parseGoogleVisionResponse resp
            (.error "ReferenceError: startTime is not defined",
             { tk with time := tk.time + 1, http := tk.http + 1 })

/-- `analyzeWithLocalAI` (source lines 260–263): delegates to the mock
path unconditionally. -/
def analyzeWithLocalAI (env : Env) (tk : Ticks) (image : ImageRef)
    (options : Options) : Except JsErr AnalysisResult × Ticks :=
  analyzeWithMockAI env tk image options

/-- The `switch (this.config.mode)` dispatch of `analyzeImage`
(source lines 67–84); `'mock'` and any unknown mode take the mock path. -/
def dispatchMode (env : Env) (cfg : Config) (tk : Ticks) (image : ImageRef)
    (options : Options) : Except JsErr AnalysisResult × Ticks :=
  if cfg.mode = "openai" then analyzeWithOpenAI env cfg tk image options
  else if cfg.mode = "google" then analyzeWithGoogleVision env cfg tk image options
  else if cfg.mode = "local" then analyzeWithLocalAI env tk image options
  else analyzeWithMockAI env tk image options

/-- Ticks after the initial `Date.now()` of `analyzeImage`. -/
def tkAfterStart (tk : Ticks) : Ticks := { tk with time := tk.time + 1 }

/-- The cache consultation of `analyzeImage` (source line 59):
`this.config.cacheResults && this.cache.has(cacheKey)`, yielding the cached
value when it applies. -/
def cacheProbe (st : AState) (k : String) : Option AnalysisResult :=
  if st.config.cacheResults then lookupCache st.cache k else none

/-- `analyzeImage` (source lines 53–106): count the request, check the
cache, dispatch; on success update the running average, the success
counter and the cache; on a thrown backend error count the failure and
fall back to the mock path (whose own file read may itself throw, in
which case that error propagates). -/
def analyzeImage (env : Env) (st : AState) (image : ImageRef)
    (options : Options) : Except JsErr AnalysisResult × AState :=
  let startTime := env.time st.ticks.time
  let tk0 := tkAfterStart st.ticks
  let stats0 := { st.stats with totalRequests := st.stats.totalRequests + 1 }
  let cacheKey := getCacheKey image options
  match cacheProbe st cacheKey with
  | some v =>
      (.ok v, { st with
                  stats := { stats0 with cacheHits := stats0.cacheHits + 1 }
                  ticks := tk0 })
  | none =>
      match dispatchMode env st.config tk0 image options with
      | (.ok result, tk1) =>
          let responseTime := env.time tk1.time - startTime
          let tk2 : Ticks := { tk1 with time := tk1.time + 1 }
          let newAvg := (stats0.averageResponseTime * stats0.successful
            + responseTime) / (stats0.successful + 1)
          let stats1 := { stats0 with
            averageResponseTime := newAvg
            successful := stats0.successful + 1 }
          let cache1 := if st.config.cacheResults
            then setCache st.cache cacheKey result else st.cache
          (.ok result, { st with stats := stats1, cache := cache1, ticks := tk2 })
      | (.error _, tk1) =>
          let stats1 := { stats0 with failed := stats0.failed + 1 }
          match analyzeWithMockAI env tk1 image options with
          | (.ok r, tk2) =>
              (.ok r, { st with stats := stats1, ticks := tk2 })
          | (.error e2, tk2) =>
              (.error e2, { st with stats := stats1, ticks := tk2 })

/-- The object returned by `getStats` (source lines 391–398). -/
structure StatsView where
  totalRequests : ℕ
  successful : ℕ
  failed : ℕ
  cacheHits : ℕ
  averageResponseTime : ℚ
  cacheSize : ℕ
  mode : String
  cacheEnabled : Bool
deriving DecidableEq

/-- `getStats` (read-only). -/
def getStatsView (st : AState) : StatsView where
  totalRequests := st.stats.totalRequests
  successful := st.stats.successful
  failed := st.stats.failed
  cacheHits := st.stats.cacheHits
  averageResponseTime := st.stats.averageResponseTime
  cacheSize := st.cache.length
  mode := st.config.mode
  cacheEnabled := st.config.cacheResults

/-- `clearCache` (source lines 403–406). -/
def clearCacheOp (st : AState) : AState := { st with cache := [] }

/-- `updateConfig` (source lines 411–414). -/
def updateConfigOp (st : AState) (p : ConfigUpdate) : AState :=
  { st with config := mergeConfig st.config p }

/-! ### Operation sequences (for the counter claims) -/

/-- One public operation on the analyzer. -/
inductive Op where
  | analyze (img : ImageRef) (opts : Options)
  | stats
  | clear
  | update (p : ConfigUpdate)

/-- Effect of one operation on the state (`getStats` reads only). -/
def stepOp (env : Env) (s : AState) : Op → AState
  | .analyze img opts => (analyzeImage env s img opts).2
  | .stats => s
  | .clear => clearCacheOp s
  | .update p => updateConfigOp s p

/-- Run a sequence of operations. -/
def runOps (env : Env) (s : AState) (ops : List Op) : AState :=
  ops.foldl (stepOp env) s

/-- Is an operation an `analyzeImage` invocation? -/
def isAnalyzeOp : Op → Bool
  | .analyze _ _ => true
  | _ => false

/-! ### Fingerprint analysis (claim C7)

A quote-tracking scanner over serialized JSON: it certifies that every
character consumed outside a string literal is a JSON structural character
or a digit, and that every character consumed right after an in-string
backslash is `"` or `\`.  Since `-` fails both checks, every `-` of a
serialized options object lies strictly inside a string literal, which is
what makes `path + "-" + JSON.stringify(options)` unambiguous. -/

/-- Scanner state: outside any string literal, inside one, or inside one
right after a backslash. -/
inductive ScanSt where
  | outside
  | inside
  | escaped
deriving DecidableEq

/-- Scanner transition. -/
def scanStep : ScanSt → Char → ScanSt
  | .outside, c => if c = '"' then .inside else .outside
  | .inside, c =>
      if c = '"' then .outside else if c = '\\' then .escaped else .inside
  | .escaped, _ => .inside

/-- State after scanning a character list. -/
def stFrom (σ : ScanSt) (xs : List Char) : ScanSt := xs.foldl scanStep σ

/-- Decimal digit test. -/
def isDigitCh (c : Char) : Bool :=
  c = '0' || c = '1' || c = '2' || c = '3' || c = '4' || c = '5' ||
  c = '6' || c = '7' || c = '8' || c = '9'

/-- Per-state character admissibility: outside string literals only JSON
structural characters and digits occur; after a backslash only `"` or `\`. -/
def checkCh : ScanSt → Char → Bool
  | .outside, c => c = '{' || c = '}' || c = '"' || c = ':' || c = ',' || isDigitCh c
  | .inside, _ => true
  | .escaped, c => c = '"' || c = '\\'

/-- The whole list is admissible from state `σ`. -/
def okScan : ScanSt → List Char → Bool
  | _, [] => true
  | σ, c :: cs => checkCh σ c && okScan (scanStep σ c) cs

/-- Readability of the image reference: buffers are always readable, a
path must exist on disk. -/
def Readable (env : Env) : ImageRef → Prop
  | .path p => (env.fs p).isSome
  | .buffer _ => True

/-- Shallow merge of a partial configuration over the current one, written
from the spec's own words (§4.1: "shallow-merges the partial configuration
over the current one — per-provider sub-objects are replaced wholesale, not
deep-merged"): every top-level key present in the update replaces the
corresponding value wholesale, every absent key keeps the current value. -/
def specShallowMerge (c : Config) (p : ConfigUpdate) : Config where
  mode := match p.mode with | some m => m | none => c.mode
  openai := match p.openai with | some v => v | none => c.openai
  google := match p.google with | some v => v | none => c.google
  localCfg := match p.localCfg with | some v => v | none => c.localCfg
  maxRetries := match p.maxRetries with | some v => v | none => c.maxRetries
  timeout := match p.timeout with | some v => v | none => c.timeout
  cacheResults := match p.cacheResults with | some v => v | none => c.cacheResults

/-- An environment for concrete runs: degenerate random stream, the clock
reading `i` at its `i`-th consultation, no readable files, every HTTP call
failing. -/
def env0 : Env where
  rand := fun _ => 0
  time := fun i => i
  fs := fun _ => none
  openaiResp := fun _ => none
  googleResp := fun _ => none

/-- Like `env0` but with every path readable with size 3. -/
def envFs : Env := { env0 with fs := fun _ => some 3 }

/-- Like `envFs` but with every Google HTTP call resolving with an empty
well-formed body. -/
def envG : Env := { envFs with googleResp := fun _ => some {} }

/-- The analyzer as constructed by the module's singleton: `new
AIImageAnalyzer()`. -/
def st0 : AState := mkAnalyzer {}

/-- `st0` after `updateConfig({mode:'openai'})` (no `openai.apiKey`). -/
def stOpenAI : AState := updateConfigOp st0 { mode := some "openai" }

/-- `st0` after switching to google mode with a non-empty API key. -/
def stGoogle : AState :=
  updateConfigOp st0
    { mode := some "google"
      google := some { apiKey := some "g", projectId := none } }

/-- Number of `analyzeImage` invocations in an operation sequence. -/
def countAnalyze (ops : List Op) : ℕ := (ops.filter isAnalyzeOp).length

/-- The stats invariant of claim C10: every request is accounted to
exactly one outcome counter. -/
def StatsInv (s : AState) : Prop :=
  s.stats.totalRequests =
    s.stats.successful + s.stats.failed + s.stats.cacheHits

theorem stFrom_nil (σ : ScanSt) : stFrom σ [] = σ := rfl

theorem stFrom_cons (σ : ScanSt) (c : Char) (xs : List Char) :
    stFrom σ (c :: xs) = stFrom (scanStep σ c) xs := rfl

theorem stFrom_append (σ : ScanSt) (xs ys : List Char) :
    stFrom σ (xs ++ ys) = stFrom (stFrom σ xs) ys :=
  List.foldl_append _ _ _ _

theorem okScan_append (σ : ScanSt) (xs ys : List Char) :
    okScan σ (xs ++ ys) = (okScan σ xs && okScan (stFrom σ xs) ys) := by
  induction xs generalizing σ with
  | nil => simp [okScan, stFrom_nil]
  | cons c cs ih =>
      simp [okScan, stFrom_cons, ih, Bool.and_assoc]

/-- Every split point of an admissible list obeys the per-state check. -/
theorem okScan_split (σ : ScanSt) (u v : List Char) (c : Char)
    (h : okScan σ (u ++ c :: v) = true) :
    checkCh (stFrom σ u) c = true := by
  induction u generalizing σ with
  | nil =>
      simp only [List.nil_append, okScan, Bool.and_eq_true] at h
      simpa [stFrom_nil] using h.1
  | cons a u' ih =>
      simp only [List.cons_append, okScan, Bool.and_eq_true] at h
      simpa [stFrom_cons] using ih (scanStep σ a) h.2

theorem escChars_okScan (s : List Char) :
    okScan .inside (escChars s) = true ∧ stFrom .inside (escChars s) = .inside := by
  induction s with
  | nil => exact ⟨rfl, rfl⟩
  | cons c cs ih =>
      by_cases h1 : c = '"'
      · simp [escChars, h1, okScan, checkCh, scanStep, stFrom_cons, ih]
      · by_cases h2 : c = '\\'
        · simp [escChars, h1, h2, okScan, checkCh, scanStep, stFrom_cons, ih]
        · simp [escChars, h1, h2, okScan, checkCh, scanStep, stFrom_cons, ih]

theorem digitChar_isDigit (m : ℕ) : isDigitCh (digitChar m) = true := by
  unfold digitChar
  split <;> rfl

theorem digitChar_checkOut (m : ℕ) : checkCh .outside (digitChar m) = true := by
  unfold digitChar
  split <;> rfl

theorem digitChar_stepOut (m : ℕ) : scanStep .outside (digitChar m) = .outside := by
  unfold digitChar
  split <;> rfl

theorem natDigitsAux_okScan (fuel n : ℕ) :
    okScan .outside (natDigitsAux fuel n) = true ∧
    stFrom .outside (natDigitsAux fuel n) = .outside := by
  induction fuel generalizing n with
  | zero => exact ⟨rfl, rfl⟩
  | succ fuel ih =>
      unfold natDigitsAux
      by_cases h : n < 10
      · simp [h, okScan, digitChar_checkOut, stFrom_cons, digitChar_stepOut,
          stFrom_nil]
      · simp only [h, if_false, okScan_append, stFrom_append, (ih (n / 10)).1,
          (ih (n / 10)).2, Bool.true_and]
        simp [okScan, digitChar_checkOut, stFrom_cons, digitChar_stepOut,
          stFrom_nil]

theorem natDigits_okScan (n : ℕ) :
    okScan .outside (natDigits n) = true ∧
    stFrom .outside (natDigits n) = .outside :=
  natDigitsAux_okScan (n + 1) n

theorem strField_okScan (k : List Char) (v : String)
    (hk1 : okScan .inside k = true) (hk2 : stFrom .inside k = .inside) :
    okScan .outside (strField k v) = true ∧
    stFrom .outside (strField k v) = .outside := by
  have he := escChars_okScan v.data
  constructor
  · simp only [strField, okScan, checkCh, scanStep, okScan_append, stFrom_append]
    simp [hk1, hk2, okScan, checkCh, scanStep, stFrom_cons, he.1, he.2,
      okScan_append, stFrom_append, isDigitCh]
  · simp only [strField]
    simp [stFrom_cons, stFrom_append, scanStep, hk2, he.2, stFrom_nil]

theorem numField_okScan (n : ℕ) :
    okScan .outside (numField n) = true ∧
    stFrom .outside (numField n) = .outside := by
  have hd := natDigits_okScan n
  constructor
  · simp only [numField, okScan, checkCh, scanStep, okScan_append, stFrom_append]
    simp [okScan, checkCh, scanStep, stFrom_cons, hd.1, hd.2,
      okScan_append, stFrom_append, isDigitCh,
      (by decide : okScan ScanSt.inside maxTokensKey = true),
      (by decide : stFrom ScanSt.inside maxTokensKey = ScanSt.inside)]
  · simp only [numField]
    simp [stFrom_cons, stFrom_append, scanStep, hd.2,
      (by decide : stFrom ScanSt.inside maxTokensKey = ScanSt.inside)]

/-- Every member list produced by `optParts` is admissible and scans back
to the outside state. -/
theorem optParts_okScan (o : Options) :
    ∀ p ∈ optParts o, okScan .outside p = true ∧ stFrom .outside p = .outside := by
  intro p hp
  simp only [optParts, List.mem_append, List.mem_map, Option.mem_toList] at hp
  rcases hp with ((⟨v, _, rfl⟩ | ⟨v, _, rfl⟩) | ⟨v, _, rfl⟩) | ⟨v, _, rfl⟩
  · exact strField_okScan _ _ (by decide) (by decide)
  · exact numField_okScan _
  · exact strField_okScan _ _ (by decide) (by decide)
  · exact strField_okScan _ _ (by decide) (by decide)

theorem joinComma_okScan (ps : List (List Char))
    (h : ∀ p ∈ ps, okScan .outside p = true ∧ stFrom .outside p = .outside) :
    okScan .outside (joinComma ps) = true ∧
    stFrom .outside (joinComma ps) = .outside := by
  induction ps with
  | nil => exact ⟨rfl, rfl⟩
  | cons p ps ih =>
      cases ps with
      | nil => exact h p (by simp)
      | cons q qs =>
          have hp := h p (by simp)
          have hrest := ih (fun r hr => h r (List.mem_cons_of_mem _ hr))
          constructor
          · show okScan .outside (p ++ ',' :: joinComma (q :: qs)) = true
            simp [okScan_append, hp.1, hp.2, okScan, checkCh, scanStep,
              stFrom_cons, hrest.1]
          · show stFrom .outside (p ++ ',' :: joinComma (q :: qs)) = .outside
            simp [stFrom_append, hp.2, stFrom_cons, scanStep, hrest.2]

/-- The serialized options object is admissible for the scanner. -/
theorem stringifyOpts_okScan (o : Options) :
    okScan .outside (stringifyOpts o) = true := by
  have hj := joinComma_okScan (optParts o) (optParts_okScan o)
  simp only [stringifyOpts]
  simp [okScan, checkCh, scanStep, stFrom_cons, okScan_append, stFrom_append,
    hj.1, hj.2, isDigitCh]

theorem joinComma_cons (p : List Char) (ps : List (List Char)) :
    ∃ t, joinComma (p :: ps) = p ++ t := by
  cases ps with
  | nil => exact ⟨[], by simp [joinComma]⟩
  | cons q qs => exact ⟨',' :: joinComma (q :: qs), rfl⟩

/-- If any option field is present, the serialized object starts with
`{"` followed by the first letter of a field name. -/
theorem stringifyOpts_head (o : Options) :
    optParts o = [] ∨
    ∃ c rest, stringifyOpts o = '{' :: '"' :: c :: rest ∧
      (c = 'p' ∨ c = 'm' ∨ c = 'd' ∨ c = 'a') := by
  rcases hp : optParts o with _ | ⟨part, ps⟩
  · exact Or.inl rfl
  · right
    obtain ⟨t, ht⟩ := joinComma_cons part ps
    have hpart : ∃ k rest1,
        part = '"' :: k :: rest1 ∧ (k = 'p' ∨ k = 'm' ∨ k = 'd' ∨ k = 'a') := by
      have hmem : part ∈ optParts o := by rw [hp]; simp
      simp only [optParts, List.mem_append, List.mem_map, Option.mem_toList] at hmem
      rcases hmem with ((⟨v, _, rfl⟩ | ⟨v, _, rfl⟩) | ⟨v, _, rfl⟩) | ⟨v, _, rfl⟩
      · exact ⟨'p', _, rfl, Or.inl rfl⟩
      · exact ⟨'m', _, rfl, Or.inr (Or.inl rfl)⟩
      · exact ⟨'d', _, rfl, Or.inr (Or.inr (Or.inl rfl))⟩
      · exact ⟨'a', _, rfl, Or.inr (Or.inr (Or.inr rfl))⟩
    obtain ⟨k, rest1, hpe, hk⟩ := hpart
    refine ⟨k, (rest1 ++ t) ++ ['}'], ?_, hk⟩
    rw [hpe] at ht
    simp only [stringifyOpts, hp, hpe, ht]
    simp

theorem natDigitsAux_last (fuel n : ℕ) (h : 0 < fuel) :
    ∃ w m, natDigitsAux fuel n = w ++ [digitChar m] := by
  cases fuel with
  | zero => omega
  | succ fuel =>
      unfold natDigitsAux
      by_cases hn : n < 10
      · exact ⟨[], n, by simp [hn]⟩
      · exact ⟨natDigitsAux fuel (n / 10), n % 10, by simp [hn]⟩

theorem strField_last (k : List Char) (v : String) :
    ∃ w c, strField k v = w ++ [c] ∧ (c = '"' ∨ isDigitCh c = true) := by
  refine ⟨'"' :: k ++ '"' :: ':' :: '"' :: escChars v.data, '"', ?_, Or.inl rfl⟩
  simp [strField]

theorem numField_last (n : ℕ) :
    ∃ w c, numField n = w ++ [c] ∧ (c = '"' ∨ isDigitCh c = true) := by
  obtain ⟨w, m, hw⟩ := natDigitsAux_last (n + 1) n (by omega)
  refine ⟨'"' :: maxTokensKey ++ '"' :: ':' :: w, digitChar m,
    ?_, Or.inr (digitChar_isDigit m)⟩
  simp [numField, natDigits, hw]

theorem joinComma_last (p : List Char) (ps : List (List Char))
    (h : ∀ q ∈ p :: ps, ∃ w c, q = w ++ [c] ∧ (c = '"' ∨ isDigitCh c = true)) :
    ∃ w c, joinComma (p :: ps) = w ++ [c] ∧ (c = '"' ∨ isDigitCh c = true) := by
  induction ps generalizing p with
  | nil =>
      obtain ⟨w, c, hw, hc⟩ := h p (by simp)
      exact ⟨w, c, by simpa [joinComma] using hw, hc⟩
  | cons q qs ih =>
      obtain ⟨w, c, hw, hc⟩ := ih q (fun r hr => h r (List.mem_cons_of_mem _ hr))
      exact ⟨p ++ ',' :: w, c, by simp [joinComma, hw], hc⟩

/-- The serialized options object is `{}` or ends in `c}` with `c` a quote
or a digit. -/
theorem stringifyOpts_last (o : Options) :
    stringifyOpts o = ['{', '}'] ∨
    ∃ w c, stringifyOpts o = '{' :: (w ++ [c]) ++ ['}'] ∧
      (c = '"' ∨ isDigitCh c = true) := by
  rcases hp : optParts o with _ | ⟨part, ps⟩
  · left; simp [stringifyOpts, hp, joinComma]
  · right
    have hall : ∀ q ∈ part :: ps, ∃ w c, q = w ++ [c] ∧
        (c = '"' ∨ isDigitCh c = true) := by
      intro q hq
      have hmem : q ∈ optParts o := by rw [hp]; exact hq
      simp only [optParts, List.mem_append, List.mem_map, Option.mem_toList] at hmem
      rcases hmem with ((⟨v, _, rfl⟩ | ⟨v, _, rfl⟩) | ⟨v, _, rfl⟩) | ⟨v, _, rfl⟩
      · exact strField_last _ _
      · exact numField_last _
      · exact strField_last _ _
      · exact strField_last _ _
    obtain ⟨w, c, hw, hc⟩ := joinComma_last part ps hall
    exact ⟨w, c, by simp [stringifyOpts, hp, hw], hc⟩

/-- Core disambiguation fact: no serialized options object ends with
`-` followed by another serialized options object. -/
theorem stringify_no_dash_suffix (o1 o2 : Options) (u : List Char) :
    stringifyOpts o2 ≠ u ++ '-' :: stringifyOpts o1 := by
  intro h
  have hok2 := stringifyOpts_okScan o2
  have hdash : checkCh (stFrom .outside u) '-' = true :=
    okScan_split _ u _ '-' (by rw [← h]; exact hok2)
  have hin : stFrom .outside u = .inside := by
    cases hst : stFrom .outside u
    · rw [hst] at hdash; exact absurd hdash (by decide)
    · rfl
    · rw [hst] at hdash; exact absurd hdash (by decide)
  rcases stringifyOpts_head o1 with hempty | ⟨c, rest, hs1, hc⟩
  · -- `s1 = "{}"`: compare the final three characters of `s2`.
    have hs1 : stringifyOpts o1 = ['{', '}'] := by
      simp [stringifyOpts, hempty, joinComma]
    rw [hs1] at h
    rcases stringifyOpts_last o2 with h2 | ⟨w, c, hw, hc⟩
    · rw [h2] at h
      have hlen := congrArg List.length h
      simp at hlen
    · rw [hw] at h
      have h2 : ('{' :: w) ++ [c, '}'] = (u ++ ['-']) ++ ['{', '}'] := by
        simpa using h
      have h3 : c = '{' := by
        have := (List.append_inj' h2 rfl).2
        simpa using this
      rcases hc with rfl | hdig
      · exact absurd h3 (by decide)
      · rw [h3] at hdig
        exact absurd hdig (by decide)
  · -- `s1 = '{' :: '"' :: c :: rest` with `c` a key letter: the scanner
    -- state right before `c` inside `s2` is `outside`, but key letters
    -- fail the outside check.
    rw [hs1] at h
    have h' : stringifyOpts o2 = (u ++ ['-', '{', '"']) ++ c :: rest := by
      rw [h]; simp
    have hcheck : checkCh (stFrom .outside (u ++ ['-', '{', '"'])) c = true :=
      okScan_split _ _ _ c (by rw [← h']; exact hok2)
    rw [stFrom_append, hin] at hcheck
    have hst : stFrom ScanSt.inside ['-', '{', '"'] = ScanSt.outside := by decide
    rw [hst] at hcheck
    rcases hc with rfl | rfl | rfl | rfl <;> exact absurd hcheck (by decide)

/-- Splitting a list around a distinguished element: if the suffix after
the marker is shorter on one side, the longer suffix contains the shorter
one after its own marker occurrence. -/
theorem append_marker_split {α : Type} (a b : α) :
    ∀ (p2 p1 s1 s2 : List α), p1 ++ a :: s1 = p2 ++ b :: s2 →
      s1.length < s2.length → ∃ u, s2 = u ++ a :: s1 := by
  intro p2
  induction p2 with
  | nil =>
      intro p1 s1 s2 h hlen
      cases p1 with
      | nil =>
          simp at h
          rw [h.2] at hlen
          omega
      | cons d p1' =>
          simp at h
          exact ⟨p1', h.2.symm⟩
  | cons c p2' ih =>
      intro p1 s1 s2 h hlen
      cases p1 with
      | nil =>
          simp at h
          have := congrArg List.length h.2
          simp at this
          omega
      | cons d p1' =>
          simp at h
          exact ih p1' s1 s2 h.2 hlen

/-- For path inputs the fingerprint determines the path and the serialized
options string. -/
theorem getCacheKey_path_inj (p1 p2 : String) (o1 o2 : Options)
    (h : getCacheKey (.path p1) o1 = getCacheKey (.path p2) o2) :
    p1 = p2 ∧ stringifyOpts o1 = stringifyOpts o2 := by
  have hd : p1.data ++ '-' :: stringifyOpts o1 =
      p2.data ++ '-' :: stringifyOpts o2 := by
    have := congrArg String.data h
    simpa [getCacheKey, getCacheKeyL] using this
  rcases Nat.lt_trichotomy (stringifyOpts o1).length (stringifyOpts o2).length
    with hlt | heq | hgt
  · obtain ⟨u, hu⟩ :=
      append_marker_split '-' '-' p2.data p1.data _ _ hd hlt
    exact absurd hu (stringify_no_dash_suffix o1 o2 u)
  · have hlen : (p1.data).length = (p2.data).length := by
      have h2 := congrArg List.length hd
      rw [List.length_append, List.length_append, List.length_cons,
        List.length_cons] at h2
      omega
    obtain ⟨hp, hs⟩ := List.append_inj hd hlen
    refine ⟨?_, by simpa using hs⟩
    cases p1
    cases p2
    exact congrArg String.mk (by simpa using hp)
  · obtain ⟨u, hu⟩ :=
      append_marker_split '-' '-' p1.data p2.data _ _ hd.symm hgt
    exact absurd hu (stringify_no_dash_suffix o2 o1 u)

/-- Same-length buffers with the same options always collide. -/
theorem getCacheKey_buffer_collision (b1 b2 : List ℕ) (o : Options)
    (h : b1.length = b2.length) :
    getCacheKey (.buffer b1) o = getCacheKey (.buffer b2) o := by
  simp [getCacheKey, getCacheKeyL, h]

/-! ### Path lemmas for `analyzeImage` -/

theorem readable_statSize {env : Env} {img : ImageRef} (h : Readable env img) :
    ∃ n, statSize env img = .ok n := by
  cases img with
  | path p =>
      simp only [Readable, Option.isSome_iff_exists] at h
      obtain ⟨n, hn⟩ := h
      exact ⟨n, by simp [statSize, hn]⟩
  | buffer bs => exact ⟨bs.length, rfl⟩

/-- On a readable image the mock path always succeeds, with a
`success: true`, `mode: 'mock'` result. -/
theorem analyzeWithMockAI_ok (env : Env) (tk : Ticks) (img : ImageRef)
    (o : Options) (h : Readable env img) :
    ∃ r, (analyzeWithMockAI env tk img o).1 = .ok r ∧
      r.success = true ∧ r.mode = "mock" := by
  obtain ⟨n, hn⟩ := readable_statSize h
  simp only [analyzeWithMockAI, hn]
  exact ⟨_, rfl, rfl, rfl⟩

/-- Cache-hit path of `analyzeImage` (source lines 59–62). -/
theorem analyzeImage_hit (env : Env) (st : AState) (img : ImageRef)
    (o : Options) (v : AnalysisResult)
    (h : cacheProbe st (getCacheKey img o) = some v) :
    analyzeImage env st img o =
      (.ok v,
       { st with
           stats := { st.stats with
             totalRequests := st.stats.totalRequests + 1
             cacheHits := st.stats.cacheHits + 1 }
           ticks := tkAfterStart st.ticks }) := by
  simp only [analyzeImage, h]

/-- Fresh-dispatch success path of `analyzeImage` (source lines 64–97). -/
theorem analyzeImage_ok (env : Env) (st : AState) (img : ImageRef)
    (o : Options) (r : AnalysisResult) (tk1 : Ticks)
    (hm : cacheProbe st (getCacheKey img o) = none)
    (hd : dispatchMode env st.config (tkAfterStart st.ticks) img o = (.ok r, tk1)) :
    analyzeImage env st img o =
      (.ok r,
       { st with
           stats := { st.stats with
             totalRequests := st.stats.totalRequests + 1
             successful := st.stats.successful + 1
             averageResponseTime :=
               (st.stats.averageResponseTime * st.stats.successful +
                 (env.time tk1.time - env.time st.ticks.time)) /
               (st.stats.successful + 1) }
           cache := if st.config.cacheResults
             then setCache st.cache (getCacheKey img o) r else st.cache
           ticks := { tk1 with time := tk1.time + 1 } }) := by
  simp only [analyzeImage, hm, hd]

/-- Error-fallback path of `analyzeImage` (source lines 99–105): failure
counter, then the mock fallback, whose own outcome is passed through. -/
theorem analyzeImage_err (env : Env) (st : AState) (img : ImageRef)
    (o : Options) (e : JsErr) (tk1 : Ticks)
    (hm : cacheProbe st (getCacheKey img o) = none)
    (hd : dispatchMode env st.config (tkAfterStart st.ticks) img o = (.error e, tk1)) :
    analyzeImage env st img o =
      ((analyzeWithMockAI env tk1 img o).1,
       { st with
           stats := { st.stats with
             totalRequests := st.stats.totalRequests + 1
             failed := st.stats.failed + 1 }
           ticks := (analyzeWithMockAI env tk1 img o).2 }) := by
  simp only [analyzeImage, hm, hd]
  rcases hmk : analyzeWithMockAI env tk1 img o with ⟨res, tk2⟩
  cases res <;> simp

theorem lookupCache_setCache (c : List (String × AnalysisResult)) (k : String)
    (v : AnalysisResult) : lookupCache (setCache c k v) k = some v := by
  simp [setCache, lookupCache]

/-- `analyzeImage` never changes the configuration. -/
theorem analyzeImage_config (env : Env) (st : AState) (img : ImageRef)
    (o : Options) : (analyzeImage env st img o).2.config = st.config := by
  rcases hp : cacheProbe st (getCacheKey img o) with _ | v
  · rcases hd : dispatchMode env st.config (tkAfterStart st.ticks) img o
      with ⟨res, tk1⟩
    cases res with
    | ok r => rw [analyzeImage_ok env st img o r tk1 hp hd]
    | error e => rw [analyzeImage_err env st img o e tk1 hp hd]
  · rw [analyzeImage_hit env st img o v hp]

/-- Every `analyzeImage` call counts exactly one request (source line 55),
on every path. -/
theorem analyzeImage_total (env : Env) (st : AState) (img : ImageRef)
    (o : Options) :
    (analyzeImage env st img o).2.stats.totalRequests =
      st.stats.totalRequests + 1 := by
  rcases hp : cacheProbe st (getCacheKey img o) with _ | v
  · rcases hd : dispatchMode env st.config (tkAfterStart st.ticks) img o
      with ⟨res, tk1⟩
    cases res with
    | ok r => rw [analyzeImage_ok env st img o r tk1 hp hd]
    | error e => rw [analyzeImage_err env st img o e tk1 hp hd]
  · rw [analyzeImage_hit env st img o v hp]

/-- Every `analyzeImage` call increments exactly one of the three outcome
counters. -/
theorem analyzeImage_outcome (env : Env) (st : AState) (img : ImageRef)
    (o : Options) :
    (analyzeImage env st img o).2.stats.successful +
      (analyzeImage env st img o).2.stats.failed +
      (analyzeImage env st img o).2.stats.cacheHits =
    st.stats.successful + st.stats.failed + st.stats.cacheHits + 1 := by
  rcases hp : cacheProbe st (getCacheKey img o) with _ | v
  · rcases hd : dispatchMode env st.config (tkAfterStart st.ticks) img o
      with ⟨res, tk1⟩
    cases res with
    | ok r =>
        rw [analyzeImage_ok env st img o r tk1 hp hd]
        dsimp only
        omega
    | error e =>
        rw [analyzeImage_err env st img o e tk1 hp hd]
        dsimp only
        omega
  · rw [analyzeImage_hit env st img o v hp]
    dsimp only
    omega

/-- A call that misses the cache leaves `cacheHits` unchanged. -/
theorem analyzeImage_miss_cacheHits (env : Env) (st : AState) (img : ImageRef)
    (o : Options) (hm : cacheProbe st (getCacheKey img o) = none) :
    (analyzeImage env st img o).2.stats.cacheHits = st.stats.cacheHits := by
  rcases hd : dispatchMode env st.config (tkAfterStart st.ticks) img o
    with ⟨res, tk1⟩
  cases res with
  | ok r => rw [analyzeImage_ok env st img o r tk1 hm hd]
  | error e => rw [analyzeImage_err env st img o e tk1 hm hd]

theorem runOps_total (env : Env) (ops : List Op) :
    ∀ s : AState, (runOps env s ops).stats.totalRequests =
      s.stats.totalRequests + countAnalyze ops := by
  induction ops with
  | nil => intro s; simp [runOps, countAnalyze]
  | cons op rest ih =>
      intro s
      have hstep : runOps env s (op :: rest) = runOps env (stepOp env s op) rest := rfl
      rw [hstep, ih]
      cases op with
      | analyze img opts =>
          simp [stepOp, countAnalyze, List.filter_cons, isAnalyzeOp,
            analyzeImage_total]
          omega
      | stats => simp [stepOp, countAnalyze, List.filter_cons, isAnalyzeOp]
      | clear =>
          simp [stepOp, clearCacheOp, countAnalyze, List.filter_cons,
            isAnalyzeOp]
      | update p =>
          simp [stepOp, updateConfigOp, countAnalyze, List.filter_cons,
            isAnalyzeOp]

/-- C8: after any operation sequence since construction,
`getStats().totalRequests` equals the number of `analyzeImage`
invocations in the sequence: every call (cache hit, fresh dispatch or
error fallback) adds exactly one, and `getStats`, `clearCache` and
`updateConfig` leave the counter unchanged. -/
theorem c8_total_requests_counts_calls (env : Env) (c : ConfigUpdate)
    (ops : List Op) :
    (getStatsView (runOps env (mkAnalyzer c) ops)).totalRequests =
      countAnalyze ops := by
  show (runOps env (mkAnalyzer c) ops).stats.totalRequests = countAnalyze ops
  rw [runOps_total]
  simp [mkAnalyzer]

theorem stepOp_statsInv (env : Env) (s : AState) (op : Op)
    (h : StatsInv s) : StatsInv (stepOp env s op) := by
  cases op with
  | analyze img opts =>
      have h1 := analyzeImage_total env s img opts
      have h2 := analyzeImage_outcome env s img opts
      unfold StatsInv at *
      simp only [stepOp]
      omega
  | stats => exact h
  | clear => exact h
  | update p => exact h

/-- C10: the invariant `totalRequests = successful + failed + cacheHits`
holds at construction (all counters zero) and is preserved by every
completed operation: each `analyzeImage` call increments `totalRequests`
and exactly one of the outcome counters, and `getStats`, `clearCache`
and `updateConfig` modify no counter. -/
theorem c10_stats_invariant (env : Env) (c : ConfigUpdate) (ops : List Op) :
    StatsInv (runOps env (mkAnalyzer c) ops) := by
  have hbase : StatsInv (mkAnalyzer c) := by
    unfold StatsInv mkAnalyzer
    rfl
  clear hbase
  suffices hgen : ∀ s : AState, StatsInv s → StatsInv (runOps env s ops) by
    exact hgen _ (by unfold StatsInv mkAnalyzer; rfl)
  induction ops with
  | nil => intro s hs; exact hs
  | cons op rest ih =>
      intro s hs
      exact ih _ (stepOp_statsInv env s op hs)

/-- C5: on every successful fresh dispatch (cache miss, no backend error),
`analyzeImage` updates the running mean by the count-weighted formula
`newAvg = (oldAvg * successfulBefore + responseTime) / (successfulBefore + 1)`
with `successfulBefore` the pre-call success counter, increments
`successful` by one, leaves `failed` and `cacheHits` unchanged, and stores
the result in the cache exactly when caching is enabled. -/
theorem c5_success_bookkeeping (env : Env) (st : AState) (img : ImageRef)
    (o : Options) (r : AnalysisResult) (tk1 : Ticks)
    (hm : cacheProbe st (getCacheKey img o) = none)
    (hd : dispatchMode env st.config (tkAfterStart st.ticks) img o =
      (.ok r, tk1)) :
    (analyzeImage env st img o).1 = .ok r ∧
    (analyzeImage env st img o).2.stats.averageResponseTime =
      (st.stats.averageResponseTime * st.stats.successful +
        (env.time tk1.time - env.time st.ticks.time)) /
      (st.stats.successful + 1) ∧
    (analyzeImage env st img o).2.stats.successful = st.stats.successful + 1 ∧
    (analyzeImage env st img o).2.stats.failed = st.stats.failed ∧
    (analyzeImage env st img o).2.stats.cacheHits = st.stats.cacheHits ∧
    (analyzeImage env st img o).2.cache =
      (if st.config.cacheResults then setCache st.cache (getCacheKey img o) r
       else st.cache) := by
  rw [analyzeImage_ok env st img o r tk1 hm hd]
  exact ⟨rfl, rfl, rfl, rfl, rfl, rfl⟩

/-- C9: on the error-fallback path the cache is left unchanged (the mock
substitute is never stored), `successful` and `averageResponseTime` are
untouched, any normally returned value is exactly the mock fallback's
result, and an immediately following call with the same image and options
misses the cache again (its `cacheHits` stays unchanged) instead of
hitting it. -/
theorem c9_error_path_no_cache (env : Env) (st : AState) (img : ImageRef)
    (o : Options) (e : JsErr) (tk1 : Ticks)
    (hm : cacheProbe st (getCacheKey img o) = none)
    (hd : dispatchMode env st.config (tkAfterStart st.ticks) img o =
      (.error e, tk1)) :
    (analyzeImage env st img o).2.cache = st.cache ∧
    (analyzeImage env st img o).2.stats.successful = st.stats.successful ∧
    (analyzeImage env st img o).2.stats.averageResponseTime =
      st.stats.averageResponseTime ∧
    (∀ r, (analyzeImage env st img o).1 = .ok r →
      (analyzeWithMockAI env tk1 img o).1 = .ok r) ∧
    (analyzeImage env (analyzeImage env st img o).2 img o).2.stats.cacheHits =
      (analyzeImage env st img o).2.stats.cacheHits := by
  have heq := analyzeImage_err env st img o e tk1 hm hd
  rw [heq]
  refine ⟨rfl, rfl, rfl, fun r h => h, ?_⟩
  exact analyzeImage_miss_cacheHits env _ img o hm

/-- Readability gives a successful `readFileSync`. -/
theorem readable_readImageOk {env : Env} {img : ImageRef}
    (h : Readable env img) : readImageOk env img = .ok () := by
  cases img with
  | path p =>
      simp only [Readable] at h
      simp [readImageOk, h]
  | buffer bs => rfl

/-- C1 (amended): when the dispatched backend throws and the image
reference is readable (a buffer, or a path present on disk), the error is
not propagated: `failed` is incremented by exactly one and a
mock-generated result with `success = true` and `mode = 'mock'` is
returned instead.  (For an unreadable path the mock fallback's own
metadata collection throws and that error propagates — see the
counterexample.) -/
theorem c1_backend_error_fallback (env : Env) (st : AState) (img : ImageRef)
    (o : Options) (e : JsErr) (tk1 : Ticks)
    (hm : cacheProbe st (getCacheKey img o) = none)
    (hd : dispatchMode env st.config (tkAfterStart st.ticks) img o =
      (.error e, tk1))
    (hr : Readable env img) :
    ∃ r, (analyzeImage env st img o).1 = .ok r ∧ r.success = true ∧
      r.mode = "mock" ∧
      (analyzeImage env st img o).2.stats.failed = st.stats.failed + 1 := by
  obtain ⟨r, hrr, hs, hmo⟩ := analyzeWithMockAI_ok env tk1 img o hr
  have heq := analyzeImage_err env st img o e tk1 hm hd
  rw [heq]
  exact ⟨r, hrr, hs, hmo, rfl⟩

/-- C1 counterexample: with mode `'openai'`, no API key and an unreadable
path, the backend throws (missing credential), `failed` is incremented by
one — but the caller receives the propagated `ENOENT` error from the mock
fallback's `fs.statSync`, not a mock success result, contradicting the
claim's unconditional "the error is not propagated to the caller". -/
theorem c1_claim_counterexample :
    (analyzeImage env0 stOpenAI (.path "missing.jpg") {}).1 =
      .error "ENOENT: missing.jpg" ∧
    (analyzeImage env0 stOpenAI (.path "missing.jpg") {}).2.stats.failed = 1 :=
  ⟨rfl, rfl⟩

/-- C1 witness: after `updateConfig({mode:'openai'})` with no
`openai.apiKey`, the next `analyzeImage` call on a readable (buffer) image
returns a mock-shaped success result and `failed` rises from 0 to 1. -/
theorem c1_backend_error_fallback_witness :
    ∃ r, (analyzeImage env0 stOpenAI (.buffer [1, 2, 3]) {}).1 = .ok r ∧
      r.success = true ∧ r.mode = "mock" ∧
      (analyzeImage env0 stOpenAI (.buffer [1, 2, 3]) {}).2.stats.failed = 1 :=
  c1_backend_error_fallback env0 stOpenAI (.buffer [1, 2, 3]) {}
    "OpenAI API key not configured" (tkAfterStart stOpenAI.ticks) rfl rfl
    trivial

/-- C2: `analyzeWithGoogleVision` can never return normally — every run
ends in a thrown error (missing key, unreadable file, failed HTTP call,
or, after a successful well-formed response, the `ReferenceError` from
reading the undefined `startTime`).  Consequently in google mode with a
non-empty key, a readable image and a successfully resolving annotate
request, the dispatch throws the `ReferenceError`, `failed` is
incremented and a mock-mode result is returned by `analyzeImage`. -/
theorem c2_google_success_branch_unreachable :
    (∀ (env : Env) (cfg : Config) (tk : Ticks) (img : ImageRef) (o : Options),
      ∃ e, (analyzeWithGoogleVision env cfg tk img o).1 = .error e) ∧
    (∀ (env : Env) (st : AState) (img : ImageRef) (o : Options)
      (resp : GoogleResp),
      st.config.mode = "google" →
      truthyS st.config.google.apiKey = true →
      Readable env img →
      env.googleResp st.ticks.http = some resp →
      cacheProbe st (getCacheKey img o) = none →
      (analyzeWithGoogleVision env st.config (tkAfterStart st.ticks) img o).1 =
        .error "ReferenceError: startTime is not defined" ∧
      ∃ r, (analyzeImage env st img o).1 = .ok r ∧ r.mode = "mock" ∧
        r.success = true ∧
        (analyzeImage env st img o).2.stats.failed = st.stats.failed + 1) := by
  constructor
  · intro env cfg tk img o
    unfold analyzeWithGoogleVision
    cases hk : truthyS cfg.google.apiKey with
    | false => exact ⟨"Google Vision API key not configured", by simp [hk]⟩
    | true =>
        cases hri : readImageOk env img with
        | error e => exact ⟨e, by simp [hk, hri]⟩
        | ok u =>
            cases hg : env.googleResp tk.http with
            | none => exact ⟨"google request failed", by simp [hk, hri, hg]⟩
            | some resp =>
                exact ⟨"ReferenceError: startTime is not defined",
                  by simp [hk, hri, hg]⟩
  · intro env st img o resp hmode hkey hread hresp hmiss
    have hri := readable_readImageOk hread
    have hgv : analyzeWithGoogleVision env st.config (tkAfterStart st.ticks)
        img o =
        (.error "ReferenceError: startTime is not defined",
         { tkAfterStart st.ticks with
             time := (tkAfterStart st.ticks).time + 1
             http := (tkAfterStart st.ticks).http + 1 }) := by
      unfold analyzeWithGoogleVision
      simp [hkey, hri, show env.googleResp (tkAfterStart st.ticks).http =
        some resp from hresp]
    have hd : dispatchMode env st.config (tkAfterStart st.ticks) img o =
        (.error "ReferenceError: startTime is not defined",
         { tkAfterStart st.ticks with
             time := (tkAfterStart st.ticks).time + 1
             http := (tkAfterStart st.ticks).http + 1 }) := by
      unfold dispatchMode
      rw [hmode]
      simpa using hgv
    refine ⟨by rw [hgv], ?_⟩
    obtain ⟨r, hrr, hs, hmo⟩ := analyzeWithMockAI_ok env _ img o hread
    have heq := analyzeImage_err env st img o _ _ hmiss hd
    rw [heq]
    exact ⟨r, hrr, hmo, hs, rfl⟩

/-- C2 witness: concrete google-mode call with a key, a readable path and
a successful well-formed annotate response: the dispatch throws the
`ReferenceError`, the call returns a mock success result and `failed`
rises from 0 to 1. -/
theorem c2_google_success_branch_unreachable_witness :
    (analyzeWithGoogleVision envG stGoogle.config (tkAfterStart stGoogle.ticks)
      (.path "x.jpg") {}).1 =
      .error "ReferenceError: startTime is not defined" ∧
    ∃ r, (analyzeImage envG stGoogle (.path "x.jpg") {}).1 = .ok r ∧
      r.mode = "mock" ∧ r.success = true ∧
      (analyzeImage envG stGoogle (.path "x.jpg") {}).2.stats.failed = 1 :=
  c2_google_success_branch_unreachable.2 envG stGoogle (.path "x.jpg") {} {}
    rfl rfl (by simp [Readable, envG, envFs, env0]) rfl rfl

/-- C3 (amended): with caching enabled, if the first of two consecutive
identical calls completes without taking the error-fallback path (its
`failed` counter is unchanged — it either hit the cache or stored its
fresh result), then the second call finds the fingerprint in the cache,
returns the identical result, increments `cacheHits` by one and performs
no backend dispatch: `successful`, `failed`, `averageResponseTime` and
the cache itself are unchanged by the second call. -/
theorem c3_cache_idempotent (env : Env) (st : AState) (img : ImageRef)
    (o : Options) (r1 : AnalysisResult)
    (hc : st.config.cacheResults = true)
    (h1 : (analyzeImage env st img o).1 = .ok r1)
    (hnf : (analyzeImage env st img o).2.stats.failed = st.stats.failed) :
    (analyzeImage env (analyzeImage env st img o).2 img o).1 = .ok r1 ∧
    (analyzeImage env (analyzeImage env st img o).2 img o).2.stats.cacheHits =
      (analyzeImage env st img o).2.stats.cacheHits + 1 ∧
    (analyzeImage env (analyzeImage env st img o).2 img o).2.stats.successful =
      (analyzeImage env st img o).2.stats.successful ∧
    (analyzeImage env (analyzeImage env st img o).2 img o).2.stats.failed =
      (analyzeImage env st img o).2.stats.failed ∧
    (analyzeImage env (analyzeImage env st img o).2 img o).2.stats.averageResponseTime =
      (analyzeImage env st img o).2.stats.averageResponseTime ∧
    (analyzeImage env (analyzeImage env st img o).2 img o).2.cache =
      (analyzeImage env st img o).2.cache := by
  have hp2 : cacheProbe (analyzeImage env st img o).2 (getCacheKey img o) =
      some r1 := by
    rcases hp : cacheProbe st (getCacheKey img o) with _ | v
    · rcases hd : dispatchMode env st.config (tkAfterStart st.ticks) img o
        with ⟨res, tk1⟩
      cases res with
      | error e =>
          have heq := analyzeImage_err env st img o e tk1 hp hd
          rw [heq] at hnf
          dsimp only at hnf
          omega
      | ok r =>
          have heq := analyzeImage_ok env st img o r tk1 hp hd
          rw [heq] at h1
          dsimp only at h1
          obtain rfl : r = r1 := by simpa using h1
          rw [heq]
          simp [cacheProbe, hc, lookupCache_setCache]
    · have heq := analyzeImage_hit env st img o v hp
      rw [heq] at h1
      dsimp only at h1
      obtain rfl : v = r1 := by simpa using h1
      rw [heq]
      simpa [cacheProbe] using hp
  rw [analyzeImage_hit env _ img o r1 hp2]
  exact ⟨rfl, rfl, rfl, rfl, rfl, rfl⟩

/-- C3 counterexample: with caching enabled (the default) but the first
call failing over to the mock fallback (mode `'openai'`, no key), nothing
is stored, so the *second* identical call does not find the fingerprint:
`cacheHits` stays 0 and `failed` rises to 2, contradicting the claim's
unconditional "the second call finds the fingerprint in the cache,
increments `cacheHits` by one … `failed` unchanged by the second call". -/
theorem c3_claim_counterexample :
    stOpenAI.config.cacheResults = true ∧
    (analyzeImage env0 (analyzeImage env0 stOpenAI (.buffer [1]) {}).2
      (.buffer [1]) {}).2.stats.cacheHits = 0 ∧
    (analyzeImage env0 (analyzeImage env0 stOpenAI (.buffer [1]) {}).2
      (.buffer [1]) {}).2.stats.failed = 2 :=
  ⟨rfl, rfl, rfl⟩

/-- C3 witness: two identical mock-mode calls on a readable buffer — the
second returns the first's result and bumps `cacheHits` by one. -/
theorem c3_cache_idempotent_witness :
    ∃ r1, (analyzeImage envFs st0 (.buffer [9, 9]) {}).1 = .ok r1 ∧
      (analyzeImage envFs (analyzeImage envFs st0 (.buffer [9, 9]) {}).2
        (.buffer [9, 9]) {}).1 = .ok r1 ∧
      (analyzeImage envFs (analyzeImage envFs st0 (.buffer [9, 9]) {}).2
        (.buffer [9, 9]) {}).2.stats.cacheHits =
      (analyzeImage envFs st0 (.buffer [9, 9]) {}).2.stats.cacheHits + 1 := by
  obtain ⟨r1, h1, -, -⟩ :=
    analyzeWithMockAI_ok envFs (tkAfterStart st0.ticks) (.buffer [9, 9]) {}
      trivial
  have hd : dispatchMode envFs st0.config (tkAfterStart st0.ticks)
      (.buffer [9, 9]) {} =
      (.ok r1,
       (analyzeWithMockAI envFs (tkAfterStart st0.ticks) (.buffer [9, 9]) {}).2) := by
    show analyzeWithMockAI envFs (tkAfterStart st0.ticks) (.buffer [9, 9]) {} = _
    exact Prod.ext h1 rfl
  have heq := analyzeImage_ok envFs st0 (.buffer [9, 9]) {} r1 _ rfl hd
  have hfst : (analyzeImage envFs st0 (.buffer [9, 9]) {}).1 = .ok r1 := by
    rw [heq]
  have hmain := c3_cache_idempotent envFs st0 (.buffer [9, 9]) {} r1 rfl hfst
    (by rw [heq])
  exact ⟨r1, hfst, hmain.1, hmain.2.1⟩

/-- C6: `updateConfig` replaces the configuration by exactly the shallow
merge of the update over the current configuration — every top-level key
present replaces the current value wholesale (so `{openai:{apiKey}}`
drops a previously-set `openai.model`), every absent key keeps its value,
keys absent altogether change nothing, and reading the configuration
back (`getStats().mode` / `cacheEnabled`) reflects the merged result. -/
theorem c6_update_config_shallow_merge :
    (∀ (st : AState) (p : ConfigUpdate),
      updateConfigOp st p = { st with config := specShallowMerge st.config p }) ∧
    (∀ (c : Config) (k : String),
      (mergeConfig c { openai := some { apiKey := some k } }).openai =
        { apiKey := some k, model := none }) ∧
    (∀ c : Config, mergeConfig c {} = c) ∧
    (∀ (st : AState) (p : ConfigUpdate),
      (getStatsView (updateConfigOp st p)).mode =
        (specShallowMerge st.config p).mode ∧
      (getStatsView (updateConfigOp st p)).cacheEnabled =
        (specShallowMerge st.config p).cacheResults) := by
  refine ⟨fun st p => ?_, fun c k => rfl, fun c => rfl, fun st p => ⟨?_, ?_⟩⟩
  · obtain ⟨m, oa, g, l, mr, t, cr⟩ := p
    cases m <;> cases oa <;> cases g <;> cases l <;> cases mr <;> cases t <;>
      cases cr <;> rfl
  · show (mergeConfig st.config p).mode = (specShallowMerge st.config p).mode
    obtain ⟨m, oa, g, l, mr, t, cr⟩ := p
    cases m <;> rfl
  · show (mergeConfig st.config p).cacheResults =
      (specShallowMerge st.config p).cacheResults
    obtain ⟨m, oa, g, l, mr, t, cr⟩ := p
    cases cr <;> rfl

/-- C7: the fingerprint is `path + "-" + serialized options` for a string
path and `"buffer-" + length + "-" + serialized options` for raw bytes;
hence any two equal-length buffers with identical options collide, while
for path inputs the fingerprint determines both the path and the
serialized options string. -/
theorem c7_cache_fingerprint :
    (∀ (b1 b2 : List ℕ) (o : Options), b1.length = b2.length →
      getCacheKey (.buffer b1) o = getCacheKey (.buffer b2) o) ∧
    (∀ (p1 p2 : String) (o1 o2 : Options),
      getCacheKey (.path p1) o1 = getCacheKey (.path p2) o2 →
      p1 = p2 ∧ stringifyOpts o1 = stringifyOpts o2) :=
  ⟨getCacheKey_buffer_collision, getCacheKey_path_inj⟩

/-- C7 witness: two distinct one-byte buffers collide; a concrete path
fingerprint equation forces path and serialized options to agree. -/
theorem c7_cache_fingerprint_witness :
    getCacheKey (.buffer [0]) {} = getCacheKey (.buffer [1]) {} ∧
    ([0] ≠ ([1] : List ℕ)) ∧
    ("a.jpg" = "a.jpg" ∧ stringifyOpts {} = stringifyOpts {}) :=
  ⟨c7_cache_fingerprint.1 [0] [1] {} rfl, by decide,
   c7_cache_fingerprint.2 "a.jpg" "a.jpg" {} {} rfl⟩

/-- C4 (code bug): in mock mode the `confidence` range and the sentiment
enumeration hold as specified — the rounded two-decimal numerator lies in
`[70, 100]`, i.e. the value is in `[0.70, 1.00]`, and the sentiment is one
of positive/neutral/negative/mixed — but the `confidence` field is
produced by `.toFixed(2)` and is therefore a JS *string* (here
`"0.70"`), not the float required by the NormalizedAnalysis contract. -/
theorem c4_mock_confidence_is_string :
    (∀ q : ℚ, 0 ≤ q → q < 1 →
      70 ≤ toFixed100 (q * (3 / 10) + 7 / 10) ∧
      toFixed100 (q * (3 / 10) + 7 / 10) ≤ 100) ∧
    (∀ q : ℚ, 0 ≤ q → q < 1 → pickL sentiments "positive" q ∈ sentiments) ∧
    (∃ r m, (analyzeImage envFs st0 (.buffer [1, 2, 3]) {}).1 = .ok r ∧
      r.analysis = .mock m ∧ m.confidence = .str "0.70" ∧
      (∀ q : ℚ, m.confidence ≠ .num q) ∧ m.sentiment = "positive") := by
  refine ⟨fun q h0 h1 => ⟨?_, ?_⟩, fun q h0 h1 => ?_, ?_⟩
  · rw [toFixed100, Int.le_floor]
    push_cast
    linarith
  · rw [toFixed100]
    have hlt : ⌊(q * (3 / 10) + 7 / 10) * 100 + 1 / 2⌋ < (101 : ℤ) :=
      Int.floor_lt.mpr (by push_cast; linarith)
    omega
  · have hidx : (⌊q * ((sentiments.length : ℕ) : ℚ)⌋).toNat < 4 := by
      have h4 : ⌊q * ((sentiments.length : ℕ) : ℚ)⌋ < 4 := by
        apply Int.floor_lt.mpr
        show q * ((4 : ℕ) : ℚ) < ((4 : ℤ) : ℚ)
        push_cast
        linarith
      omega
    unfold pickL
    interval_cases h : (⌊q * ((sentiments.length : ℕ) : ℚ)⌋).toNat <;>
      simp [sentiments]
  · refine ⟨_, _, (rfl :
      (analyzeImage envFs st0 (.buffer [1, 2, 3]) {}).1 = .ok
        ⟨true, "mock", ((1 : ℕ) : ℚ),
         .mock ⟨pickL objectLists [] 0, pickL colorPalettes [] 0,
           pickL sentiments "positive" 0,
           ConfVal.str (fixedStr (toFixed100 ((0 : ℚ) * (3 / 10) + 7 / 10))),
           pickL sampleTexts "" 0,
           ⟨⌊(0 : ℚ) * 1000⌋ + 800, ⌊(0 : ℚ) * 800⌋ + 600, "jpg", 3⟩⟩,
         (0 : ℚ) * 500 + 100, none⟩), rfl, ?_, ?_, ?_⟩
    · have h70 : toFixed100 ((0 : ℚ) * (3 / 10) + 7 / 10) = 70 := by
        norm_num [toFixed100]
      show ConfVal.str (fixedStr (toFixed100 ((0 : ℚ) * (3 / 10) + 7 / 10))) =
        ConfVal.str "0.70"
      rw [h70]
      decide
    · intro q h
      exact ConfVal.noConfusion h
    · show pickL sentiments "positive" (0 : ℚ) = "positive"
      norm_num [pickL, sentiments]

/-- C4 witness: the range and sentiment conjuncts instantiated at the
concrete draw `q = 1/2`. -/
theorem c4_mock_confidence_is_string_witness :
    (70 ≤ toFixed100 ((1 / 2 : ℚ) * (3 / 10) + 7 / 10) ∧
      toFixed100 ((1 / 2 : ℚ) * (3 / 10) + 7 / 10) ≤ 100) ∧
    pickL sentiments "positive" (1 / 2 : ℚ) ∈ sentiments :=
  ⟨c4_mock_confidence_is_string.1 (1 / 2) (by norm_num) (by norm_num),
   c4_mock_confidence_is_string.2.1 (1 / 2) (by norm_num) (by norm_num)⟩

/-- C5 witness: the first successful mock-mode call (old average 0, old
success count 0, measured response time 2) yields average `(0*0+2)/1 = 2`
and success counter 1. -/
theorem c5_success_bookkeeping_witness :
    (analyzeImage envFs st0 (.buffer [9, 9]) {}).2.stats.successful = 1 ∧
    (analyzeImage envFs st0 (.buffer [9, 9]) {}).2.stats.averageResponseTime = 2 := by
  obtain ⟨r1, h1, -, -⟩ :=
    analyzeWithMockAI_ok envFs (tkAfterStart st0.ticks) (.buffer [9, 9]) {}
      trivial
  have hd : dispatchMode envFs st0.config (tkAfterStart st0.ticks)
      (.buffer [9, 9]) {} =
      (.ok r1,
       (analyzeWithMockAI envFs (tkAfterStart st0.ticks) (.buffer [9, 9]) {}).2) := by
    show analyzeWithMockAI envFs (tkAfterStart st0.ticks) (.buffer [9, 9]) {} = _
    exact Prod.ext h1 rfl
  have hmain := c5_success_bookkeeping envFs st0 (.buffer [9, 9]) {} r1 _ rfl hd
  refine ⟨hmain.2.2.1, ?_⟩
  rw [hmain.2.1]
  norm_num [envFs, env0, st0, mkAnalyzer, analyzeWithMockAI, tkAfterStart,
    statSize]

/-- C9 witness: a concrete failed openai-mode call leaves the cache and
the success counter untouched, and the immediately repeated identical
call misses the cache again. -/
theorem c9_error_path_no_cache_witness :
    (analyzeImage env0 stOpenAI (.buffer [1]) {}).2.cache = stOpenAI.cache ∧
    (analyzeImage env0 stOpenAI (.buffer [1]) {}).2.stats.successful = 0 ∧
    (analyzeImage env0 (analyzeImage env0 stOpenAI (.buffer [1]) {}).2
      (.buffer [1]) {}).2.stats.cacheHits =
      (analyzeImage env0 stOpenAI (.buffer [1]) {}).2.stats.cacheHits := by
  have h := c9_error_path_no_cache env0 stOpenAI (.buffer [1]) {}
    "OpenAI API key not configured" (tkAfterStart stOpenAI.ticks) rfl rfl
  exact ⟨h.1, h.2.1, h.2.2.2.2⟩
